import Mathlib

/-!
# `src/res.h` of raycastmetal: shallow embedding and checked properties

Conventions of the embedding.

* `int`, `i32`, `usize`, `u16` values are `Int`/`Nat`; where a narrow type stores a value the
  reduction modulo `2 ^ w` is written out (`u16_store`).
* `f32` values are modelled by the rational number they denote (finite values only).
  The constant section is given in two readings. The declarations `PI`, `TAU`, `deg_to_rad`,
  `EYE_Z`, ... directly under `Raycast` read it in exact arithmetic: a literal such as `1.65f`
  is the rational `1.65`, and `*`, `/` are the rational operations; they are used where only
  the default values and the ordering of the constants matter. The namespace `F32` holds
  `PI`, `TAU`, `deg_to_rad` and `rad_to_deg` as the program computes them: every literal and
  every operation is rounded to binary32 (`f32_round`: round to nearest, ties to even,
  24-bit significand); it is used where the rounding decides the property.
  The conversion `static_cast<f32>(i32)` rounds in the same way (`i32_to_f32`).
  `std::round` on an `f32` is exact (its result is always representable).
* `static_cast<i32>(f32)` is undefined in C++ when the truncated value does not fit in `i32`;
  it is modelled as a function into `Option`.
* A C array `T arr[N]` is a list together with the proof that it has `N` entries (`CArray`).
* Members of `Config` that are handles into SDL / Metal (`window`, `renderer`, `layer`,
  `device`, ..., `pixels`) carry no data the properties below talk about and are left out.
  Members without a default member initialiser have an indeterminate value after default
  construction; the constructors below take them as arguments.
-/

namespace Raycast

/-! ## Scalar helpers -/

/-- Value read back from a `u16` object after storing the integer `v` into it. -/
def u16_store (v : Int) : Int := v % 2 ^ 16

/-- The range of `i32`. -/
def fits_i32 (n : Int) : Prop := -(2 ^ 31) ≤ n ∧ n ≤ 2 ^ 31 - 1

instance (n : Int) : Decidable (fits_i32 n) := by
  unfold fits_i32; infer_instance

/-- Nearest natural number with a 24-bit significand, ties to even: the magnitude part of
converting an integer to binary32. `e` is the number of low bits that do not fit. -/
def round_to_f32_nat (n : Nat) : Nat :=
  let e := Nat.log2 n - 23
  let q := n / 2 ^ e
  let r := n % 2 ^ e
  if 2 * r < 2 ^ e ∨ (2 * r = 2 ^ e ∧ q % 2 = 0) then q * 2 ^ e else (q + 1) * 2 ^ e

/-- The conversion `static_cast<f32>(n)` for an `i32` value `n`. -/
def i32_to_f32 (n : Int) : ℚ :=
  ((Int.sign n * (round_to_f32_nat n.natAbs : Int) : Int) : ℚ)

/-- Nearest integer, halfway cases away from zero: the integer that `std::round` returns. -/
def round_half_away (x : ℚ) : Int := if 0 ≤ x then ⌊x + 1 / 2⌋ else ⌈x - 1 / 2⌉

/-- The function `std::round` on `f32`: its result is again an `f32`. -/
def std_round (x : ℚ) : ℚ := (round_half_away x : ℚ)

/-- Truncation toward zero, the value `static_cast<i32>` takes when it is in range. -/
def trunc (x : ℚ) : Int := if 0 ≤ x then ⌊x⌋ else ⌈x⌉

/-- The conversion `static_cast<i32>(x)` for an `f32` value `x`; `none` where C++ leaves the
behaviour undefined (the truncated value is not an `i32`). -/
def f32_to_i32 (x : ℚ) : Option Int :=
  if fits_i32 (trunc x) then some (trunc x) else none

/-- A C array `T arr[N]`. -/
structure CArray (α : Type) (N : Nat) where
  data : List α
  length_eq : data.length = N

/-- Bounds-checked read `arr[i]`. -/
def CArray.get? {α : Type} {N : Nat} (a : CArray α N) (i : Nat) : Option α := a.data.get? i

/-- Write `arr[i] = v` (no effect when `i` is out of bounds). -/
def CArray.set {α : Type} {N : Nat} (a : CArray α N) (i : Nat) (v : α) : CArray α N :=
  ⟨a.data.set i v, by rw [List.length_set]; exact a.length_eq⟩

/-- Write `arr[i] = v` into an array of `u16`. -/
def CArray.set_u16 {N : Nat} (a : CArray Int N) (i : Nat) (v : Int) : CArray Int N :=
  a.set i (u16_store v)

/-! ## Data model (`res.h`, lines 35-55) -/

/-- `struct v2 { f32 x, y; };` -/
structure v2 where
  x : ℚ
  y : ℚ
deriving DecidableEq

/-- `struct v2i { i32 x, y; };` -/
structure v2i where
  x : Int
  y : Int
deriving DecidableEq

/-- `constexpr int SECTOR_NONE = 0;` -/
def SECTOR_NONE : Int := 0

/-- `constexpr int SECTOR_MAX = 128;` -/
def SECTOR_MAX : Int := 128

/-- `struct Wall { v2 a, b; int portal; };` -/
structure Wall where
  a : v2
  b : v2
  portal : Int
deriving DecidableEq

/-- `struct Sector { int id; usize firstwall, nwalls; f32 zfloor, zceil; };` -/
structure Sector where
  id : Int
  firstwall : Nat
  nwalls : Nat
  zfloor : ℚ
  zceil : ℚ
deriving DecidableEq

/-- Modelled from the spec: the test that classifies a wall is not in `res.h`; the spec's data
model reads `portal` as "either `SECTOR_NONE` (solid wall) or the id of the sector reachable
through it", and the motion controller tests `portal == SECTOR_NONE`. -/
def Wall.is_solid (w : Wall) : Bool := decide (w.portal = SECTOR_NONE)

/-- Modelled from the spec: a wall is a portal exactly when it is not solid. -/
def Wall.is_portal (w : Wall) : Bool := !w.is_solid

/-! ## Constants (`res.h`, lines 57-83) -/

/-- `constexpr f32 PI = 3.14159265359f;` -/
def PI : ℚ := 3.14159265359

/-- `constexpr f32 TAU = 2.0f * PI;` -/
def TAU : ℚ := 2.0 * PI

/-- `constexpr f32 PI_2 = PI / 2.0f;` -/
def PI_2 : ℚ := PI / 2.0

/-- `constexpr f32 PI_4 = PI / 4.0f;` -/
def PI_4 : ℚ := PI / 4.0

/-- `constexpr bool downscaled = true;` -/
def downscaled : Bool := true

/-- `constexpr f32 deg_to_rad(f32 d) { return d * (PI / 180.0f); }`, read in exact
arithmetic; the binary32 computation is `F32.deg_to_rad`. -/
def deg_to_rad (d : ℚ) : ℚ := d * (PI / 180.0)

/-- The initialiser of `SCREEN_WIDTH`, as a function of the switch `downscaled`. -/
def SCREEN_WIDTH_of (ds : Bool) : Int := if ds then 384 * 2 else 1280

/-- The initialiser of `SCREEN_HEIGHT`, as a function of the switch `downscaled`. -/
def SCREEN_HEIGHT_of (ds : Bool) : Int := if ds then 216 * 2 else 720

/-- `constexpr int SCREEN_WIDTH = downscaled ? 384 * 2 : 1280;` -/
def SCREEN_WIDTH : Int := SCREEN_WIDTH_of downscaled

/-- `constexpr int SCREEN_HEIGHT = downscaled ? 216 * 2: 720;` -/
def SCREEN_HEIGHT : Int := SCREEN_HEIGHT_of downscaled

/-- `constexpr int WINDOW_WIDTH = 1280;` -/
def WINDOW_WIDTH : Int := 1280

/-- `constexpr int WINDOW_HEIGHT = 720;` -/
def WINDOW_HEIGHT : Int := 720

/-- `constexpr f32 EYE_Z = 1.65f;` -/
def EYE_Z : ℚ := 1.65

/-- `constexpr f32 HFOV = deg_to_rad(120.0f);` -/
def HFOV : ℚ := deg_to_rad 120.0

/-- `constexpr f32 VFOV = 0.25f;` -/
def VFOV : ℚ := 0.25

/-- `constexpr f32 ZNEAR = 0.0001f;` -/
def ZNEAR : ℚ := 0.0001

/-- `constexpr f32 ZFAR = 128.0f;` -/
def ZFAR : ℚ := 128.0

/-! ## Binary32 arithmetic and the constants as computed (`res.h`, lines 57-65) -/

/-- Nearest integer, halfway cases to the even neighbour. -/
def round_half_even (y : ℚ) : Int :=
  if y - ⌊y⌋ < 1 / 2 then ⌊y⌋
  else if 1 / 2 < y - ⌊y⌋ then ⌊y⌋ + 1
  else if ⌊y⌋ % 2 = 0 then ⌊y⌋ else ⌊y⌋ + 1

/-- Exponent of the unit in the last place of binary32 at `x`: 23 below the binary exponent
of `x`, and never below `-149` (subnormal range). -/
def f32_ulp_exp (x : ℚ) : Int := max (Int.log 2 |x|) (-126) - 23

/-- Rounding to binary32: round to nearest, ties to even, subnormals included. Overflow to
infinity is not modelled: the value is the binary32 result whenever that result is finite,
that is whenever the magnitude returned here is below `2^128`. -/
def f32_round (x : ℚ) : ℚ :=
  (round_half_even (x / 2 ^ f32_ulp_exp x) : ℚ) * 2 ^ f32_ulp_exp x

/-- The `f32` product `a * b`: the exact product, rounded. -/
def f32_mul (a b : ℚ) : ℚ := f32_round (a * b)

/-- The `f32` quotient `a / b` for `b != 0`: the exact quotient, rounded. -/
def f32_div (a b : ℚ) : ℚ := f32_round (a / b)

namespace F32

/-- `constexpr f32 PI = 3.14159265359f;` as stored: the literal rounded to binary32. -/
def PI : ℚ := f32_round 3.14159265359

/-- `constexpr f32 TAU = 2.0f * PI;` in binary32. -/
def TAU : ℚ := f32_mul 2.0 PI

/-- `constexpr f32 deg_to_rad(f32 d) { return d * (PI / 180.0f); }` in binary32. -/
def deg_to_rad (d : ℚ) : ℚ := f32_mul d (f32_div PI 180.0)

end F32

/-! ## `Developer_Config` (`res.h`, lines 88-135) -/

/-- `struct Camera_Config`, every member with its default member initialiser. -/
structure Camera_Config where
  show_ui_of_camera : Bool := true
  EYE_Z_runtime : ℚ := EYE_Z
  HFOV_runtime : ℚ := HFOV
  VFOV_runtime : ℚ := VFOV
  ZNEAR_runtime : ℚ := ZNEAR
  ZFAR_runtime : ℚ := ZFAR
  mouse_sensitivity : ℚ := 0.0025
  mouse_sensitivity_vertical : ℚ := 0.0025
  vertical_angle : ℚ := 0.0

/-- `struct Rendering_Config`. -/
structure Rendering_Config where
  show_ui_of_rendering : Bool := true

/-- `struct Level_Data_Config`; `file_buf` has no initialiser. -/
structure Level_Data_Config where
  show_ui_of_data : Bool := true
  file_buf : CArray Int 256

/-- `struct Level_Sector_Config`. -/
structure Level_Sector_Config where
  show_ui_of_sector : Bool := true
  idx : Int := -1

/-- `struct Level_Wall_Config`; `clip_to_neighboring_wall` and `wall_start_point` have no
initialiser. -/
structure Level_Wall_Config where
  show_ui_of_wall : Bool := true
  clip_to_neighboring_wall : Bool
  idx : Int := -1
  is_creating_wall : Bool := false
  wall_start_point : v2
  hovered_wall_idx : Int := -1
  hovered_point : Int := 0

/-- `struct Level_Config`. -/
structure Level_Config where
  show_ui_of_level : Bool := true
  data : Level_Data_Config
  sector : Level_Sector_Config := {}
  wall : Level_Wall_Config

/-- `struct Developer_Config`. -/
structure Developer_Config where
  show_ui : Bool := false
  show_level_in_top_view : Bool := false
  toggle_window_size : Bool := false
  mouse_captured : Bool := false
  camera : Camera_Config := {}
  renderer : Rendering_Config := {}
  level : Level_Config

/-- A default-constructed `Developer_Config`: every member takes its default member
initialiser; the three members without one are arbitrary. -/
def Developer_Config.default_constructed (file_buf : CArray Int 256)
    (clip_to_neighboring_wall : Bool) (wall_start_point : v2) : Developer_Config :=
  { level :=
      { data := { file_buf := file_buf }
        wall := { clip_to_neighboring_wall := clip_to_neighboring_wall
                  wall_start_point := wall_start_point } } }

/-! ## `Config` (`res.h`, lines 137-175) -/

/-- `struct { Sector arr[SECTOR_MAX]; usize n; } sectors;` -/
structure Sector_Store where
  arr : CArray Sector SECTOR_MAX.toNat
  n : Nat

/-- `struct { Wall arr[256]; usize n; } walls;` -/
structure Wall_Store where
  arr : CArray Wall 256
  n : Nat

/-- The anonymous `struct { ... } camera;` of `Config`; `anglecos` and `anglesin` have no
initialiser. -/
structure Camera where
  pos : v2 := ⟨3.0, 3.0⟩
  angle : ℚ := 0.0
  anglecos : ℚ
  anglesin : ℚ
  sector : Int := 1
  current_height : ℚ := EYE_Z
  target_height : ℚ := EYE_Z
  bob_time : ℚ := 0.0
  bob_offset : ℚ := 0.0

/-- The camera of a default-constructed `Config`. -/
def Camera.default_constructed (anglecos anglesin : ℚ) : Camera :=
  { anglecos := anglecos, anglesin := anglesin }

/-- `struct Config`, its data members (`y_lo`, `y_hi` are arrays of `u16`). -/
structure Config where
  gunWidth : Int
  gunHeight : Int
  quit : Bool
  sectors : Sector_Store
  walls : Wall_Store
  y_lo : CArray Int SCREEN_WIDTH.toNat
  y_hi : CArray Int SCREEN_WIDTH.toNat
  camera : Camera

/-! ## Conversions (`res.h`, lines 177-183) -/

/-- `inline v2i to_v2i(const v2 &v)`:
`{ static_cast<i32>(std::round(v.x)), static_cast<i32>(std::round(v.y)) }`. -/
def to_v2i (v : v2) : Option v2i :=
  match f32_to_i32 (std_round v.x), f32_to_i32 (std_round v.y) with
  | some x, some y => some ⟨x, y⟩
  | _, _ => none

/-- `inline v2 to_v2(const v2i &v)`: `{ static_cast<f32>(v.x), static_cast<f32>(v.y) }`. -/
def to_v2 (v : v2i) : v2 := ⟨i32_to_f32 v.x, i32_to_f32 v.y⟩

/-! ## Concrete data used by the checks -/

/-- The spec's two-sector scenario, numbered as the spec numbers it (sectors 0 and 1):
the wall of sector 1 (the square `[4,8] x [0,4]`) on the edge shared with sector 0, whose
`portal` field names sector 0. -/
def scenario_wall_back : Wall := ⟨⟨4, 4⟩, ⟨4, 0⟩, 0⟩

/-- The same scenario with the sectors numbered 1 and 2: the wall of sector 2 on the shared
edge, whose `portal` field names sector 1. -/
def scenario_wall_back_from_one : Wall := ⟨⟨4, 4⟩, ⟨4, 0⟩, 1⟩

/-- A `Config` whose members without an initialiser are zero-filled. -/
def Config.zero_filled : Config :=
  { gunWidth := 0
    gunHeight := 0
    quit := false
    sectors := ⟨⟨List.replicate 128 ⟨0, 0, 0, 0, 0⟩, by rw [List.length_replicate]; rfl⟩, 0⟩
    walls := ⟨⟨List.replicate 256 ⟨⟨0, 0⟩, ⟨0, 0⟩, 0⟩, by rw [List.length_replicate]⟩, 0⟩
    y_lo := ⟨List.replicate 768 0, by rw [List.length_replicate]; rfl⟩
    y_hi := ⟨List.replicate 768 0, by rw [List.length_replicate]; rfl⟩
    camera := Camera.default_constructed 0 0 }

/-- A zero-filled column buffer for the screen width selected by `ds`. -/
def column_buffer_zero (ds : Bool) : CArray Int (SCREEN_WIDTH_of ds).toNat :=
  ⟨List.replicate (SCREEN_WIDTH_of ds).toNat 0, by rw [List.length_replicate]⟩

/-! ## Auxiliary lemmas -/

theorem CArray.get?_isSome_iff {α : Type} {N : Nat} (a : CArray α N) (i : Nat) :
    (a.get? i).isSome = true ↔ i < N := by
  have hN := a.length_eq
  unfold CArray.get?
  rw [List.get?_eq_getElem?]
  constructor
  · intro h
    by_contra hlt
    rw [List.getElem?_eq_none (by omega)] at h
    simp at h
  · intro h
    have hi : i < a.data.length := by omega
    rw [List.getElem?_eq_getElem hi]
    rfl

theorem CArray.get?_set_self {α : Type} {N : Nat} (a : CArray α N) (i : Nat) (v : α)
    (h : i < N) : (a.set i v).get? i = some v := by
  unfold CArray.get? CArray.set
  rw [List.get?_eq_getElem?]
  have hi : i < (a.data.set i v).length := by rw [List.length_set, a.length_eq]; exact h
  rw [List.getElem?_eq_getElem hi, List.getElem_set_self]

theorem u16_store_of_range (v : Int) (h0 : 0 ≤ v) (h1 : v < 2 ^ 16) : u16_store v = v := by
  unfold u16_store
  exact Int.emod_eq_of_lt h0 h1

theorem log2_two_pow_24 : Nat.log2 16777216 = 24 := by
  have h1 : Nat.log2 16777216 < 25 := (Nat.log2_lt (by norm_num)).2 (by norm_num)
  have h2 : ¬ Nat.log2 16777216 < 24 := fun h => by
    have := (Nat.log2_lt (by norm_num)).1 h
    norm_num at this
  omega

theorem round_to_f32_nat_of_no_excess (m : Nat) (h : Nat.log2 m - 23 = 0) :
    round_to_f32_nat m = m := by
  simp [round_to_f32_nat, h, Nat.mod_one]

theorem round_to_f32_nat_exact (m : Nat) (h : m ≤ 2 ^ 24) : round_to_f32_nat m = m := by
  rcases Nat.lt_or_ge m (2 ^ 24) with hlt | hge
  · apply round_to_f32_nat_of_no_excess
    rcases Nat.eq_zero_or_pos m with h0 | hpos
    · subst h0
      have : Nat.log2 0 = 0 := by simp [Nat.log2]
      omega
    · have : Nat.log2 m < 24 := (Nat.log2_lt (by omega)).2 hlt
      omega
  · have hm : m = 16777216 := by norm_num at h hge; omega
    subst hm
    simp [round_to_f32_nat, log2_two_pow_24]

theorem i32_to_f32_exact (n : Int) (h : |n| ≤ 2 ^ 24) : i32_to_f32 n = (n : ℚ) := by
  have hm : n.natAbs ≤ 2 ^ 24 := by
    have : (n.natAbs : Int) ≤ 2 ^ 24 := by rw [Int.natCast_natAbs]; exact h
    exact_mod_cast this
  unfold i32_to_f32
  rw [round_to_f32_nat_exact _ hm, Int.sign_mul_natAbs]

theorem round_half_away_intCast (n : Int) : round_half_away (n : ℚ) = n := by
  unfold round_half_away
  split
  · rw [Int.floor_eq_iff]; constructor <;> linarith
  · rw [Int.ceil_eq_iff]; constructor <;> linarith

theorem trunc_intCast (n : Int) : trunc (n : ℚ) = n := by
  unfold trunc
  split <;> simp

theorem f32_to_i32_std_round (x : ℚ) (h : fits_i32 (round_half_away x)) :
    f32_to_i32 (std_round x) = some (round_half_away x) := by
  unfold f32_to_i32 std_round
  rw [trunc_intCast, if_pos h]

theorem to_v2i_eq_of_fits (v : v2) (hx : fits_i32 (round_half_away v.x))
    (hy : fits_i32 (round_half_away v.y)) :
    to_v2i v = some ⟨round_half_away v.x, round_half_away v.y⟩ := by
  unfold to_v2i
  rw [f32_to_i32_std_round _ hx, f32_to_i32_std_round _ hy]

theorem round_half_away_near (x : ℚ) : |(round_half_away x : ℚ) - x| ≤ 1 / 2 := by
  unfold round_half_away
  rw [abs_le]
  split
  · have h1 := Int.floor_le (x + 1 / 2)
    have h2 := Int.lt_floor_add_one (x + 1 / 2)
    constructor <;> linarith
  · have h1 := Int.le_ceil (x - 1 / 2)
    have h2 := Int.ceil_lt_add_one (x - 1 / 2)
    constructor <;> linarith

theorem round_half_away_tie (k : Int) :
    round_half_away ((k : ℚ) + 1 / 2) = if 0 ≤ k then k + 1 else k := by
  unfold round_half_away
  by_cases hk : 0 ≤ k
  · have hq : (0 : ℚ) ≤ (k : ℚ) := by exact_mod_cast hk
    rw [if_pos (by linarith), if_pos hk, Int.floor_eq_iff]
    constructor <;> push_cast <;> linarith
  · have hq : (k : ℚ) ≤ -1 := by
      have : k ≤ -1 := by omega
      exact_mod_cast this
    rw [if_neg (by linarith), if_neg hk, Int.ceil_eq_iff]
    constructor <;> linarith

theorem fits_i32_of_abs_le (n : Int) (h : |n| ≤ 2 ^ 24) : fits_i32 n := by
  unfold fits_i32
  have := abs_le.1 h
  constructor <;> omega

theorem i32_to_f32_inexact_above : i32_to_f32 16777217 = 16777216 := by
  have h1 : Nat.log2 16777217 < 25 := (Nat.log2_lt (by norm_num)).2 (by norm_num)
  have h2 : ¬ Nat.log2 16777217 < 24 := fun h => by
    have := (Nat.log2_lt (by norm_num)).1 h
    norm_num at this
  have h : Nat.log2 16777217 = 24 := by omega
  have hr : round_to_f32_nat 16777217 = 16777216 := by
    simp [round_to_f32_nat, h]
  have hn : (16777217 : Int).natAbs = 16777217 := rfl
  have hs : Int.sign 16777217 = 1 := rfl
  unfold i32_to_f32
  rw [hn, hr, hs]
  norm_num

theorem round_half_even_eq_of_near (y : ℚ) (m : Int) (h : |y - m| < 1 / 2) :
    round_half_even y = m := by
  rw [abs_lt] at h
  rcases le_or_lt (m : ℚ) y with hle | hlt
  · have hf : ⌊y⌋ = m := by
      rw [Int.floor_eq_iff]; constructor <;> linarith
    unfold round_half_even
    rw [hf, if_pos (by linarith)]
  · have hf : ⌊y⌋ = m - 1 := by
      rw [Int.floor_eq_iff]; push_cast; constructor <;> linarith
    unfold round_half_even
    rw [hf, if_neg (by push_cast; linarith), if_pos (by push_cast; linarith)]
    ring

theorem f32_ulp_exp_eq (x : ℚ) (e : Int) (he : -126 ≤ e) (h1 : (2 : ℚ) ^ e ≤ |x|)
    (h2 : |x| < (2 : ℚ) ^ (e + 1)) : f32_ulp_exp x = e - 23 := by
  have hpos : 0 < |x| := lt_of_lt_of_le (by positivity) h1
  have hl1 : e ≤ Int.log 2 |x| :=
    (Int.zpow_le_iff_le_log (by norm_num) hpos).1 (by exact_mod_cast h1)
  have hl2 : Int.log 2 |x| < e + 1 :=
    (Int.lt_zpow_iff_log_lt (by norm_num) hpos).1 (by exact_mod_cast h2)
  unfold f32_ulp_exp
  have : Int.log 2 |x| = e := by omega
  rw [this, max_eq_left he]

theorem f32_round_eq_of_near (x : ℚ) (e m : Int) (he : -126 ≤ e) (hx : 0 < x)
    (h1 : (2 : ℚ) ^ e ≤ x) (h2 : x < (2 : ℚ) ^ (e + 1))
    (hm : |x / 2 ^ (e - 23) - m| < 1 / 2) : f32_round x = m * 2 ^ (e - 23) := by
  have hk : f32_ulp_exp x = e - 23 :=
    f32_ulp_exp_eq x e he (by rw [abs_of_pos hx]; exact h1) (by rw [abs_of_pos hx]; exact h2)
  unfold f32_round
  rw [hk, round_half_even_eq_of_near _ m hm]

theorem F32.PI_eq : F32.PI = 13176795 / 4194304 := by
  unfold F32.PI
  rw [f32_round_eq_of_near _ 1 13176795 (by norm_num) (by norm_num) (by norm_num) (by norm_num)
    (by rw [abs_lt]; constructor <;> norm_num)]
  norm_num


theorem F32.TAU_eq : F32.TAU = 13176795 / 2097152 := by
  unfold F32.TAU f32_mul
  rw [F32.PI_eq,
    f32_round_eq_of_near _ 2 13176795 (by norm_num) (by norm_num) (by norm_num) (by norm_num)
    (by rw [abs_lt]; constructor <;> norm_num)]
  norm_num

theorem F32.deg_factor_eq : f32_div F32.PI 180.0 = 9370165 / 536870912 := by
  unfold f32_div
  rw [F32.PI_eq,
    f32_round_eq_of_near _ (-6) 9370165 (by norm_num) (by norm_num) (by norm_num) (by norm_num)
    (by rw [abs_lt]; constructor <;> norm_num)]
  norm_num

theorem F32.deg_to_rad_eq (d : ℚ) : F32.deg_to_rad d = f32_round (d * (9370165 / 536870912)) := by
  unfold F32.deg_to_rad f32_mul
  rw [F32.deg_factor_eq]

theorem F32.deg_to_rad_120 :
    F32.deg_to_rad 120 = 4392265 / 2097152 ∧
    f32_div (f32_mul 2.0 F32.PI) 3.0 = 4392265 / 2097152 := by
  constructor
  · rw [F32.deg_to_rad_eq,
      f32_round_eq_of_near _ 1 8784530 (by norm_num) (by norm_num) (by norm_num) (by norm_num)
      (by rw [abs_lt]; constructor <;> norm_num)]
    norm_num
  · have h := F32.TAU_eq
    unfold F32.TAU at h
    rw [h]
    unfold f32_div
    rw [f32_round_eq_of_near _ 1 8784530 (by norm_num) (by norm_num) (by norm_num)
      (by norm_num) (by rw [abs_lt]; constructor <;> norm_num)]
    norm_num

/-! ## C1: the solid-wall sentinel and sector ids -/

/-- C1, as stated, fails: the sentinel `SECTOR_NONE` is `0`, which is a valid index into the
sector array (`0 <= 0 < SECTOR_MAX`), so not every valid index differs from the sentinel; and
in the two-sector scenario numbered from 0, the wall of sector 1 whose `portal` field names
sector 0 holds the sentinel and is classified solid, not portal. -/
theorem sector_none_is_valid_index :
    ¬ (∀ i : Int, 0 ≤ i → i < SECTOR_MAX → i ≠ SECTOR_NONE) ∧
    ((0 : Int) ≤ 0 ∧ (0 : Int) < SECTOR_MAX ∧ (0 : Int) = SECTOR_NONE) ∧
    scenario_wall_back.portal = 0 ∧
    scenario_wall_back.is_portal = false ∧
    scenario_wall_back.is_solid = true := by
  refine ⟨fun h => h 0 (le_refl 0) (by decide) rfl, ⟨le_refl 0, by decide, rfl⟩, rfl, ?_, ?_⟩
  · decide
  · decide

/-- C1, amended: the sentinel is distinguishable from every sector id from 1 on. For every `i`
with `1 <= i < SECTOR_MAX`, `i != SECTOR_NONE`, and a wall whose `portal` field holds `i` is a
portal and not a solid wall; a wall whose `portal` field holds `0` is a solid wall. -/
theorem sector_none_distinct_from_positive_ids (i : Int) (w : Wall)
    (h1 : 1 ≤ i) (h2 : i < SECTOR_MAX) (hw : w.portal = i) :
    i ≠ SECTOR_NONE ∧ w.is_portal = true ∧ w.is_solid = false ∧
    (0 ≤ i ∧ i < SECTOR_MAX) ∧
    (∀ u : Wall, u.portal = 0 → u.is_solid = true ∧ u.is_portal = false) := by
  have hne : i ≠ SECTOR_NONE := by unfold SECTOR_NONE; omega
  have hs : w.is_solid = false := by
    unfold Wall.is_solid
    rw [hw]
    exact decide_eq_false hne
  refine ⟨hne, ?_, hs, ⟨by omega, h2⟩, ?_⟩
  · unfold Wall.is_portal
    rw [hs]
    rfl
  · intro u hu
    have : u.is_solid = true := by
      unfold Wall.is_solid SECTOR_NONE
      exact decide_eq_true hu
    refine ⟨this, ?_⟩
    unfold Wall.is_portal
    rw [this]
    rfl

/-- C1, amended, at the scenario numbered from 1: the wall of sector 2 whose `portal` field
names sector 1 is a portal. -/
theorem sector_none_distinct_from_positive_ids_witness :
    (1 : Int) ≠ SECTOR_NONE ∧ scenario_wall_back_from_one.is_portal = true ∧
    scenario_wall_back_from_one.is_solid = false :=
  have h := sector_none_distinct_from_positive_ids 1 scenario_wall_back_from_one
    (le_refl 1) (by decide) rfl
  ⟨h.1, h.2.1, h.2.2.1⟩

/-! ## C2: capacities of the geometry store -/

/-- C2: the sector array has exactly `SECTOR_MAX` entries with `SECTOR_MAX = 128`, the wall
array has exactly 256 entries, and a bounds-checked read succeeds exactly at the indices below
128, respectively below 256. -/
theorem geometry_store_capacities (cfg : Config) :
    SECTOR_MAX = 128 ∧
    (cfg.sectors.arr.data.length : Int) = SECTOR_MAX ∧
    cfg.sectors.arr.data.length = 128 ∧
    cfg.walls.arr.data.length = 256 ∧
    (∀ i : Nat, (cfg.sectors.arr.get? i).isSome = true ↔ i < 128) ∧
    (∀ i : Nat, (cfg.walls.arr.get? i).isSome = true ↔ i < 256) := by
  have hs : cfg.sectors.arr.data.length = 128 := cfg.sectors.arr.length_eq
  refine ⟨rfl, ?_, hs, cfg.walls.arr.length_eq, ?_, ?_⟩
  · rw [hs]; rfl
  · intro i
    exact CArray.get?_isSome_iff cfg.sectors.arr i
  · intro i
    exact CArray.get?_isSome_iff cfg.walls.arr i

/-- C2 at a zero-filled `Config`: index 127 is the last sector slot and index 255 the last
wall slot. -/
theorem geometry_store_capacities_witness :
    (Config.zero_filled.sectors.arr.get? 127).isSome = true ∧
    ¬ (Config.zero_filled.sectors.arr.get? 128).isSome = true ∧
    (Config.zero_filled.walls.arr.get? 255).isSome = true ∧
    ¬ (Config.zero_filled.walls.arr.get? 256).isSome = true :=
  have h := geometry_store_capacities Config.zero_filled
  ⟨(h.2.2.2.2.1 127).2 (by decide), fun h128 => absurd ((h.2.2.2.2.1 128).1 h128) (by decide),
   (h.2.2.2.2.2 255).2 (by decide), fun h256 => absurd ((h.2.2.2.2.2 256).1 h256) (by decide)⟩

/-! ## C3: the occlusion buffers -/

/-- C3: `y_lo` and `y_hi` have `SCREEN_WIDTH` entries each; for both values `ds` of the switch
`downscaled`, `SCREEN_HEIGHT mod 2^16 = SCREEN_HEIGHT`, and storing a row `r` with
`0 <= r <= SCREEN_HEIGHT` (in particular `SCREEN_HEIGHT` itself) into entry `x` of a `u16`
column buffer and reading it back yields the same value. -/
theorem occlusion_buffer_roundtrip (ds : Bool) (buf : CArray Int (SCREEN_WIDTH_of ds).toNat)
    (x : Nat) (r : Int) (hx : (x : Int) < SCREEN_WIDTH_of ds) (hr0 : 0 ≤ r)
    (hr1 : r ≤ SCREEN_HEIGHT_of ds) :
    (∀ cfg : Config, (cfg.y_lo.data.length : Int) = SCREEN_WIDTH ∧
      (cfg.y_hi.data.length : Int) = SCREEN_WIDTH) ∧
    (buf.data.length : Int) = SCREEN_WIDTH_of ds ∧
    SCREEN_HEIGHT_of ds % 2 ^ 16 = SCREEN_HEIGHT_of ds ∧
    u16_store 0 = 0 ∧
    u16_store (SCREEN_HEIGHT_of ds) = SCREEN_HEIGHT_of ds ∧
    u16_store r = r ∧
    (buf.set_u16 x r).get? x = some r ∧
    (buf.set_u16 x (SCREEN_HEIGHT_of ds)).get? x = some (SCREEN_HEIGHT_of ds) ∧
    (buf.set_u16 x 0).get? x = some 0 := by
  have hH : 0 ≤ SCREEN_HEIGHT_of ds ∧ SCREEN_HEIGHT_of ds < 2 ^ 16 := by
    cases ds <;> decide
  have hW : ((SCREEN_WIDTH_of ds).toNat : Int) = SCREEN_WIDTH_of ds := by
    cases ds <;> decide
  have hxN : x < (SCREEN_WIDTH_of ds).toNat := by omega
  have hsH : u16_store (SCREEN_HEIGHT_of ds) = SCREEN_HEIGHT_of ds :=
    u16_store_of_range _ hH.1 hH.2
  have hsr : u16_store r = r := u16_store_of_range _ hr0 (by omega)
  have hs0 : u16_store 0 = 0 := by decide
  refine ⟨?_, ?_, hsH, hs0, hsH, hsr, ?_, ?_, ?_⟩
  · intro cfg
    have hS : ((SCREEN_WIDTH).toNat : Int) = SCREEN_WIDTH := by decide
    rw [cfg.y_lo.length_eq, cfg.y_hi.length_eq]
    exact ⟨hS, hS⟩
  · rw [buf.length_eq]; exact hW
  · unfold CArray.set_u16
    rw [hsr]
    exact CArray.get?_set_self buf x r hxN
  · unfold CArray.set_u16
    rw [hsH]
    exact CArray.get?_set_self buf x _ hxN
  · unfold CArray.set_u16
    rw [hs0]
    exact CArray.get?_set_self buf x 0 hxN

/-- C3 at the last column of the full-resolution screen: storing `SCREEN_HEIGHT = 720` into
`y_hi[1279]` reads back 720. -/
theorem occlusion_buffer_roundtrip_witness :
    ((column_buffer_zero false).set_u16 1279 720).get? 1279 = some 720 :=
  (occlusion_buffer_roundtrip false (column_buffer_zero false) 1279 720
    (by decide) (by decide) (by decide)).2.2.2.2.2.2.1

/-! ## C4: camera defaults of the configuration structure -/

/-- C4: in a default-constructed `Developer_Config` the camera members carry the compile-time
constants: `EYE_Z_runtime = EYE_Z = 1.65`, `HFOV_runtime = HFOV = deg_to_rad(120) = 2*PI/3`,
`VFOV_runtime = VFOV = 0.25`, `ZNEAR_runtime = ZNEAR = 0.0001`, `ZFAR_runtime = ZFAR = 128`;
the two mouse sensitivities both default to `0.0025` and are separate members (setting one
leaves the other unchanged). -/
theorem camera_config_defaults (file_buf : CArray Int 256) (clip : Bool) (start : v2) :
    ((Developer_Config.default_constructed file_buf clip start).camera.EYE_Z_runtime = EYE_Z ∧
      EYE_Z = 1.65) ∧
    ((Developer_Config.default_constructed file_buf clip start).camera.HFOV_runtime = HFOV ∧
      HFOV = deg_to_rad 120 ∧ deg_to_rad 120 = 2 * PI / 3) ∧
    ((Developer_Config.default_constructed file_buf clip start).camera.VFOV_runtime = VFOV ∧
      VFOV = 0.25) ∧
    ((Developer_Config.default_constructed file_buf clip start).camera.ZNEAR_runtime = ZNEAR ∧
      ZNEAR = 0.0001) ∧
    ((Developer_Config.default_constructed file_buf clip start).camera.ZFAR_runtime = ZFAR ∧
      ZFAR = 128) ∧
    ((Developer_Config.default_constructed file_buf clip start).camera.mouse_sensitivity
        = 0.0025 ∧
      (Developer_Config.default_constructed file_buf clip start).camera.mouse_sensitivity_vertical
        = 0.0025) ∧
    (∀ s : ℚ,
      ({ (Developer_Config.default_constructed file_buf clip start).camera with
          mouse_sensitivity := s }).mouse_sensitivity_vertical = 0.0025 ∧
      ({ (Developer_Config.default_constructed file_buf clip start).camera with
          mouse_sensitivity_vertical := s }).mouse_sensitivity = 0.0025) := by
  refine ⟨⟨rfl, rfl⟩, ⟨rfl, ?_, ?_⟩, ⟨rfl, rfl⟩, ⟨rfl, rfl⟩, ⟨rfl, ?_⟩, ⟨rfl, rfl⟩, ?_⟩
  · unfold HFOV; norm_num
  · unfold deg_to_rad; ring
  · unfold ZFAR; norm_num
  · intro s
    exact ⟨rfl, rfl⟩

/-! ## C5: near and far plane -/

/-- C5: `0 < ZNEAR < ZFAR`, for the compile-time constants and for the runtime defaults, and
every depth `d` beyond the near plane (`d > ZNEAR`) is positive and non-zero, so dividing by
it is a true division (`x / d * d = x`). -/
theorem depth_beyond_near_plane_positive (d : ℚ) (h : ZNEAR < d) :
    (0 < ZNEAR ∧ ZNEAR < ZFAR) ∧
    (0 < ({} : Camera_Config).ZNEAR_runtime ∧
      ({} : Camera_Config).ZNEAR_runtime < ({} : Camera_Config).ZFAR_runtime) ∧
    (({} : Camera_Config).ZNEAR_runtime < d) ∧
    0 < d ∧ d ≠ 0 ∧ ¬ d < 0 ∧ (∀ x : ℚ, x / d * d = x) := by
  have hn : (0 : ℚ) < ZNEAR := by unfold ZNEAR; norm_num
  have hf : ZNEAR < ZFAR := by unfold ZNEAR ZFAR; norm_num
  have hd : 0 < d := lt_trans hn h
  refine ⟨⟨hn, hf⟩, ⟨hn, hf⟩, h, hd, ne_of_gt hd, not_lt.2 (le_of_lt hd), ?_⟩
  intro x
  exact div_mul_cancel₀ x (ne_of_gt hd)

/-- C5 at depth `d = 1`. -/
theorem depth_beyond_near_plane_positive_witness :
    ZNEAR < 1 ∧ (0 : ℚ) < 1 ∧ (∀ x : ℚ, x / 1 * 1 = x) :=
  have h1 : ZNEAR < 1 := by unfold ZNEAR; norm_num
  have h := depth_beyond_near_plane_positive 1 h1
  ⟨h1, h.2.2.2.1, h.2.2.2.2.2.2⟩

/-! ## C6: the initial camera state -/

/-- C6: the camera of a default-constructed `Config` is at rest and well-formed:
`current_height = target_height = EYE_Z = 1.65`, `bob_time = bob_offset = 0`, the yaw angle is
`0` and lies in `[0, TAU)` with `TAU = 2*PI`, and the current sector is a valid sector index
different from the sentinel. -/
theorem initial_camera_state (anglecos anglesin : ℚ) :
    ((Camera.default_constructed anglecos anglesin).current_height = EYE_Z ∧
      (Camera.default_constructed anglecos anglesin).target_height = EYE_Z ∧
      EYE_Z = 1.65 ∧
      (Camera.default_constructed anglecos anglesin).current_height
        = (Camera.default_constructed anglecos anglesin).target_height) ∧
    ((Camera.default_constructed anglecos anglesin).bob_time = 0 ∧
      (Camera.default_constructed anglecos anglesin).bob_offset = 0) ∧
    ((Camera.default_constructed anglecos anglesin).angle = 0 ∧
      0 ≤ (Camera.default_constructed anglecos anglesin).angle ∧
      (Camera.default_constructed anglecos anglesin).angle < TAU ∧
      TAU = 2 * PI) ∧
    ((Camera.default_constructed anglecos anglesin).sector = 1 ∧
      (Camera.default_constructed anglecos anglesin).sector ≠ SECTOR_NONE ∧
      0 ≤ (Camera.default_constructed anglecos anglesin).sector ∧
      (Camera.default_constructed anglecos anglesin).sector < SECTOR_MAX) := by
  have ha : (Camera.default_constructed anglecos anglesin).angle = 0 := by
    show (0.0 : ℚ) = 0
    norm_num
  refine ⟨⟨rfl, rfl, rfl, rfl⟩, ⟨?_, ?_⟩, ⟨ha, ?_, ?_, ?_⟩, ⟨rfl, ?_, ?_, ?_⟩⟩
  · show (0.0 : ℚ) = 0
    norm_num
  · show (0.0 : ℚ) = 0
    norm_num
  · rw [ha]
  · rw [ha]; unfold TAU PI; norm_num
  · unfold TAU; norm_num
  · show (1 : Int) ≠ SECTOR_NONE
    decide
  · show (0 : Int) ≤ 1
    decide
  · show (1 : Int) < SECTOR_MAX
    decide

/-! ## C7: `to_v2i` after `to_v2` -/

/-- C7: for every integer vector `v` with `|v.x| <= 2^24` and `|v.y| <= 2^24` (components
exactly representable as `f32`), `to_v2i(to_v2(v))` is defined and equals `v`. -/
theorem to_v2i_to_v2 (v : v2i) (hx : |v.x| ≤ 2 ^ 24) (hy : |v.y| ≤ 2 ^ 24) :
    to_v2i (to_v2 v) = some v := by
  have ex : (to_v2 v).x = (v.x : ℚ) := i32_to_f32_exact v.x hx
  have ey : (to_v2 v).y = (v.y : ℚ) := i32_to_f32_exact v.y hy
  have rx : round_half_away (to_v2 v).x = v.x := by rw [ex]; exact round_half_away_intCast v.x
  have ry : round_half_away (to_v2 v).y = v.y := by rw [ey]; exact round_half_away_intCast v.y
  have fx : fits_i32 (round_half_away (to_v2 v).x) := by
    rw [rx]; exact fits_i32_of_abs_le v.x hx
  have fy : fits_i32 (round_half_away (to_v2 v).y) := by
    rw [ry]; exact fits_i32_of_abs_le v.y hy
  rw [to_v2i_eq_of_fits (to_v2 v) fx fy, rx, ry]

/-- C7 at the boundary of the representable range: `v = {16777216, -16777216}`. -/
theorem to_v2i_to_v2_witness :
    to_v2i (to_v2 ⟨16777216, -16777216⟩) = some ⟨16777216, -16777216⟩ :=
  to_v2i_to_v2 ⟨16777216, -16777216⟩ (by decide) (by decide)

/-! ## C8: `to_v2i` rounds to nearest, ties away from zero -/

/-- C8: when the rounded components fit in `i32`, `to_v2i(v)` is defined, each component `n`
of it satisfies `|n - x| <= 1/2` for the corresponding component `x` of `v`, and at a tie
`x = k + 1/2` with integer `k` the component is `k + 1` when `k >= 0` and `k` when `k < 0`. -/
theorem to_v2i_rounds_half_away (v : v2) (hx : fits_i32 (round_half_away v.x))
    (hy : fits_i32 (round_half_away v.y)) :
    ∃ w : v2i, to_v2i v = some w ∧
      |(w.x : ℚ) - v.x| ≤ 1 / 2 ∧ |(w.y : ℚ) - v.y| ≤ 1 / 2 ∧
      (∀ k : Int, v.x = (k : ℚ) + 1 / 2 → w.x = if 0 ≤ k then k + 1 else k) ∧
      (∀ k : Int, v.y = (k : ℚ) + 1 / 2 → w.y = if 0 ≤ k then k + 1 else k) := by
  refine ⟨⟨round_half_away v.x, round_half_away v.y⟩, to_v2i_eq_of_fits v hx hy,
    round_half_away_near v.x, round_half_away_near v.y, ?_, ?_⟩
  · intro k hk
    show round_half_away v.x = _
    rw [hk]
    exact round_half_away_tie k
  · intro k hk
    show round_half_away v.y = _
    rw [hk]
    exact round_half_away_tie k

/-- C8 at `v = {0.5, -0.5}`: the result is `{1, -1}`, which is not the component-wise floor
`{0, -1}`. -/
theorem to_v2i_rounds_half_away_witness :
    to_v2i ⟨0.5, -0.5⟩ = some ⟨1, -1⟩ ∧
    to_v2i ⟨0.5, -0.5⟩ ≠ some ⟨⌊(0.5 : ℚ)⌋, ⌊(-0.5 : ℚ)⌋⟩ := by
  have e1 : (0.5 : ℚ) = ((0 : Int) : ℚ) + 1 / 2 := by norm_num
  have e2 : (-0.5 : ℚ) = ((-1 : Int) : ℚ) + 1 / 2 := by norm_num
  have r1 : round_half_away (0.5 : ℚ) = 1 := by rw [e1, round_half_away_tie]; rfl
  have r2 : round_half_away (-0.5 : ℚ) = -1 := by rw [e2, round_half_away_tie]; rfl
  have f1 : fits_i32 (round_half_away (v2.mk 0.5 (-0.5)).x) := by
    show fits_i32 (round_half_away (0.5 : ℚ))
    rw [r1]; decide
  have f2 : fits_i32 (round_half_away (v2.mk 0.5 (-0.5)).y) := by
    show fits_i32 (round_half_away (-0.5 : ℚ))
    rw [r2]; decide
  obtain ⟨w, hw, _, _, tx, ty⟩ := to_v2i_rounds_half_away ⟨0.5, -0.5⟩ f1 f2
  have wx : w.x = 1 := tx 0 e1
  have wy : w.y = -1 := ty (-1) e2
  have hw1 : to_v2i ⟨0.5, -0.5⟩ = some ⟨1, -1⟩ := by
    rw [hw]
    cases w with
    | mk a b =>
      have ha : a = 1 := wx
      have hb : b = -1 := wy
      rw [ha, hb]
  refine ⟨hw1, ?_⟩
  rw [hw1]
  have fl : ⌊(0.5 : ℚ)⌋ = 0 := by
    rw [Int.floor_eq_iff]; constructor <;> norm_num
  rw [fl]
  intro h
  have := congrArg (fun o => o.map v2i.x) h
  simp at this

/-! ## C9: degrees and radians -/

end Raycast
